import Mathlib

/-!
Shallow embedding of the MCP web chat bridge (`mcp_web_server.py`,
`chargekeep_server_http.py`, `chargekeep_server.py`) and proofs about it.

Conventions of the embedding:
* JSON values are modelled by the inductive `Json`; Python dictionaries are
  association lists (first binding wins, as Python dicts have unique keys).
* Python exceptions are modelled with `Except PyErr`; `dict.get`,
  subscripting and truthiness follow Python semantics precisely.
* Network effects (the HTTP POST of `send_http_mcp_request`, the Anthropic
  API, the ChargeKeep CRM call) are inputs to the embedded functions: a
  transport outcome is an `Except PyErr Json`, the LLM is an oracle mapping
  a message history to a response.
-/

/-- JSON values exchanged over the wire, also standing in for the Python
dictionaries and lists that `response.json()` produces. -/
inductive Json where
  | null
  | bool (b : Bool)
  | num (n : Int)
  | str (s : String)
  | arr (xs : List Json)
  | obj (kvs : List (String × Json))

/-- Python exception classes that the embedded code can raise. -/
inductive PyErr where
  /-- A bare `raise Exception(msg)`. -/
  | exception (msg : String)
  /-- The `Exception` raised by `call_tool` on an error field, carrying the
  remote error payload (the f-string interpolating the error field of the
  response into the message). -/
  | toolCallFailed (payload : Json)
  /-- Calling `.get` on a value that is not a dict. -/
  | attributeError
  /-- Indexing an empty list (or an empty string). -/
  | indexError
  /-- Subscripting a dict with a missing key. -/
  | keyError
  /-- Unsupported operation on a value (e.g. indexing a number). -/
  | typeError
  /-- A failure inside `httpx` (connection error, timeout, or a
  `raise_for_status` on a non-success HTTP status). -/
  | transportError

/-- Python truthiness (`bool(x)`) on JSON-shaped values. -/
def Json.truthy : Json → Bool
  | .null => false
  | .bool b => b
  | .num n => n != 0
  | .str s => !s.isEmpty
  | .arr xs => !xs.isEmpty
  | .obj kvs => !kvs.isEmpty

/-- Lookup of a key in a JSON object, `none` when absent or when the value
is not an object. -/
def Json.lookupKey : Json → String → Option Json
  | .obj kvs, k => List.lookup k kvs
  | _, _ => none

/-- Python `x.get(k)` (single-argument form, default `None`): succeeds only
on dicts, raising `AttributeError` otherwise. -/
def pyGet (j : Json) (k : String) : Except PyErr Json :=
  match j with
  | .obj kvs => .ok ((List.lookup k kvs).getD .null)
  | _ => .error .attributeError

/-- Python `x.get(k, d)`: the default is used only when the key is absent;
a present key wins even when its value is `None`. -/
def pyGetD (j : Json) (k : String) (d : Json) : Except PyErr Json :=
  match j with
  | .obj kvs => .ok ((List.lookup k kvs).getD d)
  | _ => .error .attributeError

/-- Python `x[0]`: head of a list, `IndexError` on an empty list; first
character of a string; `KeyError` when subscripting a dict with `0`;
`TypeError` on the remaining values. -/
def pyIndexZero : Json → Except PyErr Json
  | .arr [] => .error .indexError
  | .arr (x :: _) => .ok x
  | .str s => if s.isEmpty then .error .indexError else .ok (.str (s.take 1))
  | .obj _ => .error .keyError
  | _ => .error .typeError

/-- Python `x[k]` for a string key: raises `KeyError` on a missing key and
`TypeError` when the value is not a dict. -/
def pySubscript (j : Json) (k : String) : Except PyErr Json :=
  match j with
  | .obj kvs =>
    match List.lookup k kvs with
    | some v => .ok v
    | none => .error .keyError
  | _ => .error .typeError

/-- One advertised tool, as the dict built by `get_available_tools`
(`{"name": ..., "description": ..., "input_schema": ...}`). -/
structure ToolDescriptor where
  name : Json
  description : Json
  input_schema : Json

/-- HTTP-mode branch of `MCPWebServer.call_tool`, lines 176-183 of
`mcp_web_server.py`, applied to the JSON body the transport returned:
raise on a truthy `error` field, otherwise evaluate
`response.get("result", {}).get("content", [{}])[0].get("text", "")`. -/
def call_tool (response : Json) : Except PyErr Json :=
  match pyGet response "error" with
  | .error e => .error e
  | .ok err =>
    if err.truthy then
      .error (.toolCallFailed err)
    else
      match pyGetD response "result" (.obj []) with
      | .error e => .error e
      | .ok result =>
        match pyGetD result "content" (.arr [.obj []]) with
        | .error e => .error e
        | .ok content =>
          match pyIndexZero content with
          | .error e => .error e
          | .ok first => pyGetD first "text" (.str "")

/-- HTTP-mode branch of `MCPWebServer.get_available_tools`, lines 156-165 of
`mcp_web_server.py`. The argument is the outcome of
`send_http_mcp_request("tools/list", {})`; the body has no `try`, so a
transport failure propagates. A truthy `error` field yields `[]`; otherwise
each entry of `response.get("result", {}).get("tools", [])` is read with
plain subscripting (`tool["name"]` etc.); `toolDescriptorOf` is the body
of its list comprehension. -/
def toolDescriptorOf (tool : Json) : Except PyErr ToolDescriptor :=
  match pySubscript tool "name" with
  | .error e => .error e
  | .ok n =>
    match pySubscript tool "description" with
    | .error e => .error e
    | .ok d =>
      match pySubscript tool "inputSchema" with
      | .error e => .error e
      | .ok s => .ok (ToolDescriptor.mk n d s)

def get_available_tools (transport : Except PyErr Json) :
    Except PyErr (List ToolDescriptor) :=
  match transport with
  | .error e => .error e
  | .ok response =>
    match pyGet response "error" with
    | .error e => .error e
    | .ok err =>
      if err.truthy then
        .ok []
      else
        match pyGetD response "result" (.obj []) with
        | .error e => .error e
        | .ok result =>
          match pyGetD result "tools" (.arr []) with
          | .error e => .error e
          | .ok (.arr xs) => xs.mapM toolDescriptorOf
          | .ok _ => .error .typeError

/-- Outcome of `MCPWebServer.connect_to_stdio_server`: the value returned,
the final `server_connected` flag, and the interpreter/script pair a spawn
was attempted with (`none` when validation rejected the path before any
process was spawned). No exception ever escapes: the whole body sits in a
`try`/`except` that prints and returns `False`. -/
structure StdioConnectResult where
  connected : Bool
  returned : Bool
  spawned : Option (String × String)

/-- Python `s.endswith(suffix)`: codepoint-level suffix test. -/
def pyEndsWith (s suffixStr : String) : Bool :=
  suffixStr.data.isSuffixOf s.data

/-- Embedding of `MCPWebServer.connect_to_stdio_server`, lines 86-118 of
`mcp_web_server.py`. The spawn / handshake / list-tools sequence on the
child process is collapsed into the `spawn` parameter giving its outcome;
the extension check and interpreter selection are translated verbatim
(`is_python = path.endswith(".py")`, `is_js = path.endswith(".js")`,
`command = "python" if is_python else "node"`). A bad extension raises
`ValueError` before the spawn, caught by the same `except`. -/
def connect_to_stdio_server (spawn : String → String → Except String Unit)
    (server_script_path : String) : StdioConnectResult :=
  let is_python := pyEndsWith server_script_path ".py"
  let is_js := pyEndsWith server_script_path ".js"
  if !(is_python || is_js) then
    { connected := false, returned := false, spawned := none }
  else
    let command := if is_python then "python" else "node"
    match spawn command server_script_path with
    | .ok _ =>
      { connected := true, returned := true,
        spawned := some (command, server_script_path) }
    | .error _ =>
      { connected := false, returned := false,
        spawned := some (command, server_script_path) }

/-- Embedding of `MCPWebServer.connect_to_http_server`, lines 120-135 of
`mcp_web_server.py`. The argument is the outcome of the single
`send_http_mcp_request("initialize", {})` exchange; the result is the pair
(`server_connected`, returned value). A transport failure or a truthy
`error` field is caught by the `except`, which sets the flag to false and
returns `False`; otherwise the flag is set and `True` returned. -/
def connect_to_http_server (initExchange : Except PyErr Json) : Bool × Bool :=
  match initExchange with
  | .error _ => (false, false)
  | .ok response =>
    match pyGet response "error" with
    | .error _ => (false, false)
    | .ok err => if err.truthy then (false, false) else (true, true)

mutual

/-- Serialization of a JSON value to a string, modelling
`json.dumps(result, indent=2)` of the ChargeKeep servers (the exact
whitespace of the `indent=2` layout is not reproduced; no proved claim
inspects the character layout, only that a string is produced). -/
def jsonDumps : Json → String
  | .null => "null"
  | .bool true => "true"
  | .bool false => "false"
  | .num n => toString n
  | .str s => "\"" ++ s ++ "\""
  | .arr xs => "[" ++ jsonDumpsList xs ++ "]"
  | .obj kvs => "\x7b" ++ jsonDumpsPairs kvs ++ "\x7d"

def jsonDumpsList : List Json → String
  | [] => ""
  | [x] => jsonDumps x
  | x :: y :: rest => jsonDumps x ++ ", " ++ jsonDumpsList (y :: rest)

def jsonDumpsPairs : List (String × Json) → String
  | [] => ""
  | [kv] => "\"" ++ kv.1 ++ "\": " ++ jsonDumps kv.2
  | kv :: kv2 :: rest =>
    "\"" ++ kv.1 ++ "\": " ++ jsonDumps kv.2 ++ ", " ++
      jsonDumpsPairs (kv2 :: rest)

end

/-- Inbound request of the ChargeKeep HTTP MCP endpoint (`MCPRequest` in
`chargekeep_server_http.py`); pydantic guarantees `params` is a dict. -/
structure MCPRequest where
  method : String
  params : List (String × Json)
  id : Int

/-- Response of the ChargeKeep HTTP MCP endpoint (`MCPResponse` in
`chargekeep_server_http.py`), with `result` and `error` defaulting to
`None`. -/
structure MCPResponse where
  result : Json := .null
  error : Json := .null
  id : Int := 1

/-- Error code carried by a response, when its `error` field is an object
with a numeric `code` entry. -/
def MCPResponse.errorCode (r : MCPResponse) : Option Int :=
  match r.error.lookupKey "code" with
  | some (.num c) => some c
  | _ => none

/-- Checks a JSON value for equality with a given Python string, as the
`tool_name == "get_contact_details"` comparison does. -/
def Json.isStr : Json → String → Bool
  | .str t, s => t == s
  | _, _ => false

/-- Result advertised by the `initialize` branch of the ChargeKeep HTTP
endpoint, lines 54-66 of `chargekeep_server_http.py`. -/
def initResult : Json :=
  .obj [("protocolVersion", .str "2024-11-05"),
        ("capabilities", .obj [("tools", .obj [])]),
        ("serverInfo", .obj [("name", .str "chargekeep-http"),
                             ("version", .str "1.0.0")])]

/-- Result advertised by the `tools/list` branch of the ChargeKeep HTTP
endpoint, lines 69-89 of `chargekeep_server_http.py`. -/
def toolsListResult : Json :=
  .obj [("tools", .arr [
    .obj [("name", .str "get_contact_details"),
          ("description", .str "Get ChargeKeep contact details by contact ID."),
          ("inputSchema", .obj [
            ("type", .str "object"),
            ("properties", .obj [
              ("contact_id", .obj [
                ("type", .str "string"),
                ("description", .str "The contact ID to fetch details for")])]),
            ("required", .arr [.str "contact_id"])])]])]

/-- Embedding of `mcp_endpoint`, lines 50-144 of
`chargekeep_server_http.py`. The CRM lookup `fetch_contact_details` is the
`fetch` parameter; it is the only awaited operation inside the handler
`try`, so its failure is the internal failure the `except` maps to code
`-32603`. Unknown methods and unknown tools yield `-32601`; a falsy
`contact_id` (missing, `None`, or empty) yields `-32602`. -/
def mcp_endpoint (fetch : Json → Except String Json) (request : MCPRequest) :
    MCPResponse :=
  if request.method == "initialize" then
    { result := initResult, id := request.id }
  else if request.method == "tools/list" then
    { result := toolsListResult, id := request.id }
  else if request.method == "tools/call" then
    let tool_name := (List.lookup "name" request.params).getD .null
    let tool_args := (List.lookup "arguments" request.params).getD (.obj [])
    if tool_name.isStr "get_contact_details" then
      match pyGet tool_args "contact_id" with
      | .error _ =>
        { error := .obj [("code", .num (-32603)),
                         ("message", .str "Internal error")],
          id := request.id }
      | .ok contact_id =>
        if !contact_id.truthy then
          { error := .obj [("code", .num (-32602)),
                           ("message", .str "Missing required parameter: contact_id")],
            id := request.id }
        else
          match fetch contact_id with
          | .ok data =>
            { result := .obj [("content", .arr [
                .obj [("type", .str "text"),
                      ("text", .str (jsonDumps data))]])],
              id := request.id }
          | .error e =>
            { error := .obj [("code", .num (-32603)),
                             ("message", .str ("Internal error: " ++ e))],
              id := request.id }
    else
      { error := .obj [("code", .num (-32601)),
                       ("message", .str "Unknown tool")],
        id := request.id }
  else
    { error := .obj [("code", .num (-32601)),
                     ("message", .str ("Unknown method: " ++ request.method))],
      id := request.id }

/-- Embedding of `fetch_contact_details`, lines 168-187 of
`chargekeep_server_http.py` (and lines 22-41 of `chargekeep_server.py`,
whose fallback differs only in not appending the error text to the note).
The outbound CRM call is the `api` parameter: `.ok data` is a success whose
body parsed to `data`; `.error e` is any transport failure or a
`raise_for_status` on a non-success HTTP status. Every failure is caught
and replaced by the mock fallback dict. -/
def fetch_contact_details (contact_id : String) (api : Except String Json) :
    Json :=
  match api with
  | .ok data => data
  | .error e =>
    .obj [("id", .str contact_id),
          ("name", .str "John Doe"),
          ("email", .str "john.doe@example.com"),
          ("phone", .str "+1-555-0123"),
          ("status", .str "mock"),
          ("note", .str ("This is fallback mock data due to API error: " ++ e))]

/-- Embedding of the `get_contact_details` tool of `chargekeep_server.py`,
lines 43-47: serialize whatever `fetch_contact_details` produced. -/
def get_contact_details (contact_id : String) (api : Except String Json) :
    String :=
  jsonDumps (fetch_contact_details contact_id api)

/-- One content block of an LLM response: plain text or a tool-use
directive (`id` is the correlation id, `input` the argument dict). -/
inductive ContentBlock where
  | text (s : String)
  | toolUse (id name : String) (input : Json)

/-- One LLM response: an ordered sequence of content blocks. -/
structure LLMResponse where
  content : List ContentBlock

/-- Role of a conversation message. -/
inductive Role where
  | user
  | assistant

/-- Content carried by one entry of the `messages` history built by
`process_query`: the seeding plain string, a singleton block list
(`{"role": "assistant", "content": [content]}`), or a tool-result payload
(`{"type": "tool_result", "tool_use_id": ..., "content": result}`). -/
inductive MsgContent where
  | text (s : String)
  | blocks (bs : List ContentBlock)
  | toolResult (tool_use_id : String) (content : Json)

/-- One entry of the conversation history. -/
structure Message where
  role : Role
  content : MsgContent

mutual

/-- Python `repr` of a JSON-shaped value, as interpolated by the f-string
`f"[Calling tool {tool_name} with args {tool_args}]"` (string escaping
inside reprs is not reproduced; no proved claim interpolates a string that
would need escaping). -/
def Json.pyRepr : Json → String
  | .null => "None"
  | .bool true => "True"
  | .bool false => "False"
  | .num n => toString n
  | .str s => "\x27" ++ s ++ "\x27"
  | .arr xs => "[" ++ Json.pyReprList xs ++ "]"
  | .obj kvs => "\x7b" ++ Json.pyReprPairs kvs ++ "\x7d"

def Json.pyReprList : List Json → String
  | [] => ""
  | [x] => x.pyRepr
  | x :: y :: rest => x.pyRepr ++ ", " ++ Json.pyReprList (y :: rest)

def Json.pyReprPairs : List (String × Json) → String
  | [] => ""
  | [kv] => "\x27" ++ kv.1 ++ "\x27: " ++ kv.2.pyRepr
  | kv :: kv2 :: rest =>
    "\x27" ++ kv.1 ++ "\x27: " ++ kv.2.pyRepr ++ ", " ++
      Json.pyReprPairs (kv2 :: rest)

end

/-- Marker line appended to `final_text` when a tool is dispatched, line
223 of `mcp_web_server.py`. -/
def callingMarker (tool_name : String) (tool_args : Json) : String :=
  "[Calling tool " ++ tool_name ++ " with args " ++ tool_args.pyRepr ++ "]"

/-- Text contributed by the text blocks of one LLM response, in order
(the branch appending `content.text` when the block type is text). -/
def textsOf (bs : List ContentBlock) : List String :=
  bs.filterMap (fun b =>
    match b with
    | .text t => some t
    | _ => none)

/-- Tool invocations (name, arguments) requested by the tool-use blocks of
a block list, in order. -/
def toolUsesOf (bs : List ContentBlock) : List (String × Json) :=
  bs.filterMap (fun b =>
    match b with
    | .toolUse _ n a => some (n, a)
    | _ => none)

/-- The two messages appended to the history after a dispatched tool call,
lines 226-239 of `mcp_web_server.py`: the assistant message carrying the
tool-use directive, immediately followed by the user message carrying the
tool result keyed by the same correlation id. -/
def toolStepMessages (msgs : List Message) (id name : String)
    (args result : Json) : List Message :=
  msgs ++
    [{ role := .assistant, content := .blocks [.toolUse id name args] },
     { role := .user, content := .toolResult id result }]

/-- Spec-side description of the lines a turn emits, written from the
amended output claim rather than from the loop, to be compared with the
implementation: walking the blocks of the first LLM response in order, a
plain-text block contributes its text; a dispatched tool-use block
contributes the `[Calling tool ...]` marker line followed by the
plain-text blocks of the one follow-up LLM response made after that
dispatch; a failed dispatch aborts the turn, which then emits nothing
(`none`). -/
def emittedLines (llm : List Message → LLMResponse)
    (host : String → Json → Except PyErr Json) :
    List ContentBlock → List Message → Option (List String)
  | [], _ => some []
  | .text s :: rest, msgs =>
    (emittedLines llm host rest msgs).map (fun tail => s :: tail)
  | .toolUse id name args :: rest, msgs =>
    match host name args with
    | .error _ => none
    | .ok result =>
      (emittedLines llm host rest
          (toolStepMessages msgs id name args result)).map
        (fun tail => callingMarker name args ::
          (textsOf (llm (toolStepMessages msgs id name args result)).content ++
            tail))

/-- Observable effects of one `process_query` run: the history passed to
each LLM call in order, the tool invocations dispatched in order, the
number of transport requests issued, and the `server_connected` flag after
the run (`process_query` never assigns it, so it always equals the flag on
entry). -/
structure Trace where
  llmHistories : List (List Message)
  toolCalls : List (String × Json)
  transportCalls : Nat
  connectedAfter : Bool

/-- Loop body of `process_query`, lines 214-253 of `mcp_web_server.py`:
iterate over the content blocks of the first LLM response (the iterated
list is fixed when the `for` starts, so reassigning `response` inside does
not extend it). A text block is appended to the accumulator. A tool-use
block is dispatched through the host; on failure the exception propagates
(the marker is not appended, nothing further runs); on success the marker
is appended, the assistant tool-use message and the user tool-result
message are appended to the history, one more LLM call is made on the
updated history, and only the text blocks of that response are appended. -/
def orchLoop (llm : List Message → LLMResponse)
    (host : String → Json → Except PyErr Json) :
    List ContentBlock → List Message → List String → Trace →
    Except PyErr (List String) × Trace
  | [], _, acc, tr => (.ok acc, tr)
  | .text s :: rest, msgs, acc, tr =>
    orchLoop llm host rest msgs (acc ++ [s]) tr
  | .toolUse id name args :: rest, msgs, acc, tr =>
    match host name args with
    | .error e =>
      (.error e,
       { tr with toolCalls := tr.toolCalls ++ [(name, args)],
                 transportCalls := tr.transportCalls + 1 })
    | .ok result =>
      orchLoop llm host rest (toolStepMessages msgs id name args result)
        (acc ++ [callingMarker name args] ++
          textsOf (llm (toolStepMessages msgs id name args result)).content)
        { tr with toolCalls := tr.toolCalls ++ [(name, args)],
                  transportCalls := tr.transportCalls + 1,
                  llmHistories := tr.llmHistories ++
                    [toolStepMessages msgs id name args result] }

/-- Embedding of `MCPWebServer.process_query`, lines 188-254 of
`mcp_web_server.py`. `connected` is `self.server_connected` on entry;
`llm` is the Anthropic API as an oracle from the passed message history to
a response; `host` is `call_tool` as seen by the orchestrator (either
transport). When disconnected it raises before any LLM or transport call.
Otherwise it seeds the history with the user query, fetches the tool list
(one transport request), issues the first LLM call, runs the block loop,
and joins the accumulated strings with newlines. -/
def process_query (connected : Bool) (llm : List Message → LLMResponse)
    (host : String → Json → Except PyErr Json) (query : String) :
    Except PyErr String × Trace :=
  if connected then
    let messages : List Message := [{ role := .user, content := .text query }]
    let response := llm messages
    let tr0 : Trace :=
      { llmHistories := [messages], toolCalls := [], transportCalls := 1,
        connectedAfter := connected }
    match orchLoop llm host response.content messages [] tr0 with
    | (.ok final_text, tr) => (.ok (String.intercalate "\n" final_text), tr)
    | (.error e, tr) => (.error e, tr)
  else
    (.error (.exception "MCP server not connected"),
     { llmHistories := [], toolCalls := [], transportCalls := 0,
       connectedAfter := connected })

/-- Shape of the history evolution across the LLM calls of one turn:
`HistSteps m hs calls` says the successive histories `hs` (those passed to
the LLM calls after the first one, which received `m`) each extend the
previous history by exactly one assistant tool-use message and the user
tool-result message keyed by the same correlation id, and that `calls`
lists the (name, arguments) of those dispatched tool uses in order. -/
inductive HistSteps :
    List Message → List (List Message) → List (String × Json) → Prop where
  | nil (m : List Message) : HistSteps m [] []
  | step (m : List Message) (hs : List (List Message))
      (calls : List (String × Json)) (id name : String) (args result : Json) :
      HistSteps (toolStepMessages m id name args result) hs calls →
      HistSteps m (toolStepMessages m id name args result :: hs)
        ((name, args) :: calls)

/-- Concrete LLM oracle realizing Scenario E: the first response carries
one text block and one tool-use block, every later response only a text
block. -/
def llmScenarioE : List Message → LLMResponse := fun msgs =>
  if msgs.length == 1 then
    { content := [.text "first",
                  .toolUse "idA" "get_info" (.obj [("k", .str "v")])] }
  else
    { content := [.text "second"] }

/-- Concrete tool host that answers every invocation with the text
`"res"`. -/
def hostOk : String → Json → Except PyErr Json := fun _ _ => .ok (.str "res")

/-- Concrete LLM oracle whose first response requests one tool and whose
follow-up response contains a text block and a further tool-use block. -/
def llmFollowUpTool : List Message → LLMResponse := fun msgs =>
  if msgs.length == 1 then
    { content := [.toolUse "id1" "tool_one" (.obj [])] }
  else
    { content := [.text "second", .toolUse "id2" "tool_two" (.obj [])] }

/-- C3: on a truthy error field `call_tool` fails carrying the remote
error payload; Scenario B extracts the text of the first content item; a
response missing the `result`, `content` or `text` field yields the empty
string; but a present, empty content list raises an `IndexError` instead
of yielding the empty string. -/
theorem C3_call_tool_response_handling :
    (∀ response err, pyGet response "error" = .ok err → err.truthy = true →
      call_tool response = .error (.toolCallFailed err)) ∧
    call_tool (.obj [("result", .obj [("content", .arr
        [.obj [("type", .str "text"), ("text", .str "\x7b\"id\":\"42\"\x7d")]])])]) =
      .ok (.str "\x7b\"id\":\"42\"\x7d") ∧
    call_tool (.obj []) = .ok (.str "") ∧
    call_tool (.obj [("result", .obj [])]) = .ok (.str "") ∧
    call_tool (.obj [("result", .obj [("content", .arr
        [.obj [("type", .str "text")]])])]) = .ok (.str "") ∧
    call_tool (.obj [("result", .obj [("content", .arr [])])]) =
      .error .indexError := by
  refine ⟨?_, rfl, rfl, rfl, rfl, rfl⟩
  intro response err h ht
  simp [call_tool, h, ht]

/-- C3 witness: the error-field branch of the handling theorem at a
concrete response. -/
theorem C3_call_tool_response_handling_witness :
    call_tool (.obj [("error", .str "boom")]) =
      .error (.toolCallFailed (.str "boom")) :=
  C3_call_tool_response_handling.1 (.obj [("error", .str "boom")])
    (.str "boom") rfl rfl

/-- C3 counterexample: against a successful response whose content list is
present but empty, `call_tool` raises an `IndexError`; it does not return
the empty string (nor any string). -/
theorem C3_empty_content_counterexample :
    call_tool (.obj [("result", .obj [("content", .arr [])])]) =
      .error .indexError ∧
    ∀ s : String,
      (Except.error PyErr.indexError : Except PyErr Json) ≠ .ok (.str s) :=
  ⟨rfl, fun _ h => nomatch h⟩

/-- C4: `get_available_tools` returns the empty list on a truthy error
field and on an explicit empty `tools` list, but a transport-level failure
propagates out of it unchanged. -/
theorem C4_list_tools_errors :
    (∀ response err, pyGet response "error" = .ok err → err.truthy = true →
      get_available_tools (.ok response) = .ok []) ∧
    (∀ e, get_available_tools (.error e) = .error e) ∧
    get_available_tools (.ok (.obj [("result", .obj [("tools", .arr [])])])) =
      .ok [] := by
  refine ⟨?_, fun e => rfl, rfl⟩
  intro response err h ht
  simp [get_available_tools, h, ht]

/-- C4 witness: the error-field branch of the errors theorem at a concrete
response. -/
theorem C4_list_tools_errors_witness :
    get_available_tools (.ok (.obj [("error", .str "down")])) = .ok [] :=
  C4_list_tools_errors.1 (.obj [("error", .str "down")]) (.str "down") rfl rfl

/-- C4 counterexample: a transport-level failure is not swallowed into an
empty sequence; it propagates out of `get_available_tools`. -/
theorem C4_transport_counterexample :
    get_available_tools (.error .transportError) = .error .transportError ∧
    (Except.error PyErr.transportError :
        Except PyErr (List ToolDescriptor)) ≠ .ok [] :=
  ⟨rfl, fun h => nomatch h⟩

/-- C6: invoking `process_query` while disconnected raises the
orchestration error before anything else runs: no LLM call, no transport
request, and the connected flag still false. -/
theorem C6_disconnected_guard (llm : List Message → LLMResponse)
    (host : String → Json → Except PyErr Json) (query : String) :
    process_query false llm host query =
      (.error (.exception "MCP server not connected"),
       { llmHistories := [], toolCalls := [], transportCalls := 0,
         connectedAfter := false }) :=
  rfl

/-- C7: `connect_to_stdio_server` picks `python` for a `.py` script and
`node` for a `.js` script; any other extension is rejected before a spawn
is attempted, with `connected = false` and return value `False` instead of
a raised exception. -/
theorem C7_stdio_extension_validation
    (spawn : String → String → Except String Unit) (path : String) :
    (pyEndsWith path ".py" = true →
      (connect_to_stdio_server spawn path).spawned = some ("python", path)) ∧
    (pyEndsWith path ".py" = false → pyEndsWith path ".js" = true →
      (connect_to_stdio_server spawn path).spawned = some ("node", path)) ∧
    (pyEndsWith path ".py" = false → pyEndsWith path ".js" = false →
      connect_to_stdio_server spawn path =
        { connected := false, returned := false, spawned := none }) := by
  refine ⟨fun hpy => ?_, fun hpy hjs => ?_, fun hpy hjs => ?_⟩
  · cases h : spawn "python" path <;>
      simp [connect_to_stdio_server, hpy, h]
  · cases h : spawn "node" path <;>
      simp [connect_to_stdio_server, hpy, hjs, h]
  · simp [connect_to_stdio_server, hpy, hjs]

/-- C7 witness: the three branches of the validation theorem at concrete
paths. -/
theorem C7_stdio_extension_validation_witness :
    (connect_to_stdio_server (fun _ _ => .ok ()) "server.py").spawned =
      some ("python", "server.py") ∧
    (connect_to_stdio_server (fun _ _ => .ok ()) "server.js").spawned =
      some ("node", "server.js") ∧
    connect_to_stdio_server (fun _ _ => .ok ()) "server.txt" =
      { connected := false, returned := false, spawned := none } :=
  ⟨(C7_stdio_extension_validation (fun _ _ => .ok ()) "server.py").1
     (by decide),
   (C7_stdio_extension_validation (fun _ _ => .ok ()) "server.js").2.1
     (by decide) (by decide),
   (C7_stdio_extension_validation (fun _ _ => .ok ()) "server.txt").2.2
     (by decide) (by decide)⟩

/-- C8: `connect_to_http_server` turns a transport failure or a truthy
error field of the initialize exchange into `(connected, returned) =
(false, false)` without raising, and a success into `(true, true)`. -/
theorem C8_connect_http_outcomes (r errF : Json) (e : PyErr) :
    connect_to_http_server (.error e) = (false, false) ∧
    (pyGet r "error" = .ok errF → errF.truthy = true →
      connect_to_http_server (.ok r) = (false, false)) ∧
    (pyGet r "error" = .ok errF → errF.truthy = false →
      connect_to_http_server (.ok r) = (true, true)) := by
  refine ⟨rfl, fun h ht => ?_, fun h ht => ?_⟩ <;>
    simp [connect_to_http_server, h, ht]

/-- C8 witness: the outcomes theorem at concrete exchanges. -/
theorem C8_connect_http_outcomes_witness :
    connect_to_http_server (.error .transportError) = (false, false) ∧
    connect_to_http_server (.ok (.obj [("error", .str "bad")])) =
      (false, false) ∧
    connect_to_http_server (.ok (.obj [("result", .obj [])])) =
      (true, true) :=
  ⟨(C8_connect_http_outcomes .null .null .transportError).1,
   (C8_connect_http_outcomes (.obj [("error", .str "bad")]) (.str "bad")
      .transportError).2.1 rfl rfl,
   (C8_connect_http_outcomes (.obj [("result", .obj [])]) .null
      .transportError).2.2 rfl rfl⟩

/-- C10: `fetch_contact_details` never propagates an upstream failure: a
successful CRM response is returned as parsed, and any CRM failure is
replaced by the fallback dict whose `id` is the requested contact id and
whose `status` is `"mock"`; `get_contact_details` therefore always
serializes a dict to a JSON string. -/
theorem C10_fetch_contact_details_total (contact_id e : String) (d : Json) :
    fetch_contact_details contact_id (.ok d) = d ∧
    (fetch_contact_details contact_id (.error e)).lookupKey "id" =
      some (.str contact_id) ∧
    (fetch_contact_details contact_id (.error e)).lookupKey "status" =
      some (.str "mock") ∧
    get_contact_details contact_id (.error e) =
      jsonDumps (fetch_contact_details contact_id (.error e)) := by
  refine ⟨rfl, rfl, ?_, rfl⟩
  simp [fetch_contact_details, Json.lookupKey, List.lookup]

/-- C9: the ChargeKeep MCP endpoint answers an unrecognized method with
error code -32601, a `get_contact_details` call without a `contact_id`
argument with -32602, an internal failure (the CRM fetch raising) with
-32603, and a well-formed `get_contact_details` call with a result of
shape `{"content": [{"type": "text", "text": <string>}]}`. -/
theorem C9_endpoint_error_codes (fetch : Json → Except String Json) (i : Int) :
    (∀ m params, m ≠ "initialize" → m ≠ "tools/list" → m ≠ "tools/call" →
      (mcp_endpoint fetch { method := m, params := params, id := i }).errorCode =
        some (-32601)) ∧
    (∀ kvs, List.lookup "contact_id" kvs = none →
      (mcp_endpoint fetch
        { method := "tools/call",
          params := [("name", .str "get_contact_details"),
                     ("arguments", .obj kvs)],
          id := i }).errorCode = some (-32602)) ∧
    (∀ args cid e, pyGet args "contact_id" = .ok cid → cid.truthy = true →
      fetch cid = .error e →
      (mcp_endpoint fetch
        { method := "tools/call",
          params := [("name", .str "get_contact_details"),
                     ("arguments", args)],
          id := i }).errorCode = some (-32603)) ∧
    (∀ args cid data, pyGet args "contact_id" = .ok cid → cid.truthy = true →
      fetch cid = .ok data →
      mcp_endpoint fetch
        { method := "tools/call",
          params := [("name", .str "get_contact_details"),
                     ("arguments", args)],
          id := i } =
        { result := .obj [("content", .arr [
            .obj [("type", .str "text"),
                  ("text", .str (jsonDumps data))]])],
          error := .null, id := i }) := by
  refine ⟨fun m params h1 h2 h3 => ?_, fun kvs h => ?_,
          fun args cid e h ht hf => ?_, fun args cid data h ht hf => ?_⟩
  · simp [mcp_endpoint, h1, h2, h3, MCPResponse.errorCode, Json.lookupKey]
  · simp [mcp_endpoint, List.lookup, Option.getD, pyGet, h, Json.truthy,
          Json.isStr, MCPResponse.errorCode, Json.lookupKey]
  · simp [mcp_endpoint, List.lookup, Option.getD, h, ht, hf, Json.isStr,
          MCPResponse.errorCode, Json.lookupKey]
  · simp [mcp_endpoint, List.lookup, Option.getD, h, ht, hf, Json.isStr]

/-- C9 witness: the four branches of the error-codes theorem at concrete
requests. -/
theorem C9_endpoint_error_codes_witness :
    (mcp_endpoint (fun _ => .ok (.obj []))
      { method := "shutdown", params := [], id := 1 }).errorCode =
        some (-32601) ∧
    (mcp_endpoint (fun _ => .ok (.obj []))
      { method := "tools/call",
        params := [("name", .str "get_contact_details"),
                   ("arguments", .obj [])],
        id := 1 }).errorCode = some (-32602) ∧
    (mcp_endpoint (fun _ => .error "CRM down")
      { method := "tools/call",
        params := [("name", .str "get_contact_details"),
                   ("arguments", .obj [("contact_id", .str "42")])],
        id := 1 }).errorCode = some (-32603) ∧
    mcp_endpoint (fun _ => .ok (.obj [("id", .str "42")]))
      { method := "tools/call",
        params := [("name", .str "get_contact_details"),
                   ("arguments", .obj [("contact_id", .str "42")])],
        id := 1 } =
      { result := .obj [("content", .arr [
          .obj [("type", .str "text"),
                ("text", .str (jsonDumps (.obj [("id", .str "42")])))]])],
        error := .null, id := 1 } :=
  ⟨(C9_endpoint_error_codes (fun _ => .ok (.obj [])) 1).1 "shutdown" []
     (by decide) (by decide) (by decide),
   (C9_endpoint_error_codes (fun _ => .ok (.obj [])) 1).2.1 [] rfl,
   (C9_endpoint_error_codes (fun _ => .error "CRM down") 1).2.2.1
     (.obj [("contact_id", .str "42")]) (.str "42") "CRM down" rfl rfl rfl,
   (C9_endpoint_error_codes (fun _ => .ok (.obj [("id", .str "42")])) 1).2.2.2
     (.obj [("contact_id", .str "42")]) (.str "42")
     (.obj [("id", .str "42")]) rfl rfl rfl⟩

/-- Helper: `String.intercalate "\n"` on a three-element list is the two
newline-joined concatenation. -/
theorem intercalate_triple (a b c : String) :
    String.intercalate "\n" [a, b, c] = a ++ "\n" ++ b ++ "\n" ++ c :=
  rfl

/-- Helper: a pass of `orchLoop` that returns normally dispatches exactly
the tool-use blocks of the iterated list, in order, and records one
further LLM call per dispatched block. -/
theorem orchLoop_ok_calls (llm : List Message → LLMResponse)
    (host : String → Json → Except PyErr Json) (blocks : List ContentBlock) :
    ∀ (msgs : List Message) (acc res : List String) (tr0 tr : Trace),
      orchLoop llm host blocks msgs acc tr0 = (.ok res, tr) →
      tr.toolCalls = tr0.toolCalls ++ toolUsesOf blocks ∧
      tr.llmHistories.length =
        tr0.llmHistories.length + (toolUsesOf blocks).length ∧
      tr.connectedAfter = tr0.connectedAfter := by
  induction blocks with
  | nil =>
    intro msgs acc res tr0 tr h
    simp only [orchLoop, Prod.mk.injEq, Except.ok.injEq] at h
    obtain ⟨-, rfl⟩ := h
    simp [toolUsesOf]
  | cons b rest ih =>
    intro msgs acc res tr0 tr h
    cases b with
    | text s =>
      simp only [orchLoop] at h
      simpa [toolUsesOf] using ih _ _ _ _ _ h
    | toolUse id name args =>
      cases hh : host name args with
      | error e => simp [orchLoop, hh] at h
      | ok result =>
        simp only [orchLoop, hh] at h
        obtain ⟨h1, h2, h3⟩ := ih _ _ _ _ _ h
        refine ⟨?_, ?_, h3⟩
        · rw [h1]
          simp [toolUsesOf]
        · rw [h2]
          simp [toolUsesOf]
          omega

/-- Helper: a pass of `orchLoop` that returns normally extends the
recorded LLM histories and the dispatched calls by one `HistSteps` chain
rooted at the current history. -/
theorem orchLoop_ok_histSteps (llm : List Message → LLMResponse)
    (host : String → Json → Except PyErr Json) (blocks : List ContentBlock) :
    ∀ (msgs : List Message) (acc res : List String) (tr0 tr : Trace),
      orchLoop llm host blocks msgs acc tr0 = (.ok res, tr) →
      ∃ hs calls, tr.llmHistories = tr0.llmHistories ++ hs ∧
        tr.toolCalls = tr0.toolCalls ++ calls ∧ HistSteps msgs hs calls := by
  induction blocks with
  | nil =>
    intro msgs acc res tr0 tr h
    simp only [orchLoop, Prod.mk.injEq, Except.ok.injEq] at h
    obtain ⟨-, rfl⟩ := h
    exact ⟨[], [], by simp, by simp, HistSteps.nil msgs⟩
  | cons b rest ih =>
    intro msgs acc res tr0 tr h
    cases b with
    | text s =>
      simp only [orchLoop] at h
      exact ih _ _ _ _ _ h
    | toolUse id name args =>
      cases hh : host name args with
      | error e => simp [orchLoop, hh] at h
      | ok result =>
        simp only [orchLoop, hh] at h
        obtain ⟨hs, calls, e1, e2, hsteps⟩ := ih _ _ _ _ _ h
        refine ⟨toolStepMessages msgs id name args result :: hs,
                (name, args) :: calls, ?_, ?_,
                HistSteps.step msgs hs calls id name args result hsteps⟩
        · rw [e1]; simp
        · rw [e2]; simp

/-- Helper: a pass of `orchLoop` that returns normally accumulates exactly
the lines the spec-side `emittedLines` predicts for its block list and
current history, appended to the accumulator it started from. -/
theorem orchLoop_ok_emitted (llm : List Message → LLMResponse)
    (host : String → Json → Except PyErr Json) (blocks : List ContentBlock) :
    ∀ (msgs : List Message) (acc res : List String) (tr0 tr : Trace),
      orchLoop llm host blocks msgs acc tr0 = (.ok res, tr) →
      ∃ es, emittedLines llm host blocks msgs = some es ∧ res = acc ++ es := by
  induction blocks with
  | nil =>
    intro msgs acc res tr0 tr h
    simp only [orchLoop, Prod.mk.injEq, Except.ok.injEq] at h
    obtain ⟨rfl, -⟩ := h
    exact ⟨[], rfl, by simp⟩
  | cons b rest ih =>
    intro msgs acc res tr0 tr h
    cases b with
    | text s =>
      simp only [orchLoop] at h
      obtain ⟨es, he, hr⟩ := ih _ _ _ _ _ h
      refine ⟨s :: es, ?_, ?_⟩
      · simp [emittedLines, he]
      · simp [hr]
    | toolUse id name args =>
      cases hh : host name args with
      | error e => simp [orchLoop, hh] at h
      | ok result =>
        simp only [orchLoop, hh] at h
        obtain ⟨es, he, hr⟩ := ih _ _ _ _ _ h
        refine ⟨callingMarker name args ::
          (textsOf (llm (toolStepMessages msgs id name args result)).content ++
            es), ?_, ?_⟩
        · simp [emittedLines, hh, he]
        · simp [hr]

/-- Helper: a successful `process_query` on a connected bridge is exactly a
successful `orchLoop` pass over the first LLM response, seeded with the
user query, whose accumulated strings are joined by newline. -/
theorem process_query_ok (llm : List Message → LLMResponse)
    (host : String → Json → Except PyErr Json) (q out : String) (tr : Trace)
    (h : process_query true llm host q = (.ok out, tr)) :
    ∃ res, orchLoop llm host
        (llm [{ role := .user, content := .text q }]).content
        [{ role := .user, content := .text q }] []
        { llmHistories := [[{ role := .user, content := .text q }]],
          toolCalls := [], transportCalls := 1, connectedAfter := true } =
      (.ok res, tr) ∧ out = String.intercalate "\n" res := by
  unfold process_query at h
  simp only [reduceIte] at h
  revert h
  cases horch : orchLoop llm host
      (llm [{ role := .user, content := .text q }]).content
      [{ role := .user, content := .text q }] []
      { llmHistories := [[{ role := .user, content := .text q }]],
        toolCalls := [], transportCalls := 1, connectedAfter := true } with
  | mk r tr2 =>
    cases r with
    | ok ft =>
      intro h
      simp only [Prod.mk.injEq, Except.ok.injEq] at h
      obtain ⟨h1, h2⟩ := h
      subst h2
      exact ⟨ft, rfl, h1.symm⟩
    | error e =>
      intro h
      simp only [Prod.mk.injEq] at h
      exact absurd h.1 (by simp)

/-- C5: in every successful turn, the history passed to the first LLM call
is exactly the seeded user message, and the history of each later LLM call
extends the previous one by the assistant message carrying the dispatched
tool-use directive immediately followed by the user message carrying its
tool result under the same correlation id — so every emitted invocation is
answered by exactly one result before the next LLM call is issued, and the
step list matches the dispatched invocations in order. -/
theorem C5_tool_result_precedes_next_llm_call
    (llm : List Message → LLMResponse)
    (host : String → Json → Except PyErr Json) (q out : String) (tr : Trace)
    (h : process_query true llm host q = (.ok out, tr)) :
    ∃ hs, tr.llmHistories =
        [{ role := Role.user, content := MsgContent.text q }] :: hs ∧
      HistSteps [{ role := Role.user, content := MsgContent.text q }] hs
        tr.toolCalls := by
  obtain ⟨res, horch, -⟩ := process_query_ok llm host q out tr h
  obtain ⟨hs, calls, e1, e2, hsteps⟩ :=
    orchLoop_ok_histSteps llm host _ _ _ _ _ _ horch
  refine ⟨hs, by simpa using e1, ?_⟩
  rw [e2]
  simpa using hsteps

/-- C5 witness: the ordering theorem applied to a concrete turn without
tool use. -/
theorem C5_tool_result_precedes_next_llm_call_witness :
    ∃ hs, Trace.llmHistories
        { llmHistories := [[{ role := Role.user, content := MsgContent.text "q" }]],
          toolCalls := [], transportCalls := 1, connectedAfter := true } =
        [{ role := Role.user, content := MsgContent.text "q" }] :: hs ∧
      HistSteps [{ role := Role.user, content := MsgContent.text "q" }] hs
        (Trace.toolCalls
          { llmHistories := [[{ role := Role.user, content := MsgContent.text "q" }]],
            toolCalls := [], transportCalls := 1, connectedAfter := true }) :=
  C5_tool_result_precedes_next_llm_call
    (fun _ => { content := [.text "hi"] }) (fun _ _ => .ok (.str "res"))
    "q" "hi"
    { llmHistories := [[{ role := Role.user, content := MsgContent.text "q" }]],
      toolCalls := [], transportCalls := 1, connectedAfter := true } rfl

/-- C2 (amended): a successful turn dispatches exactly the tool-use blocks
of the FIRST LLM response, in order, with one further LLM call per
dispatched block; tool-use blocks of follow-up responses are never
dispatched. -/
theorem C2_dispatch_limited_to_first_response
    (llm : List Message → LLMResponse)
    (host : String → Json → Except PyErr Json) (q out : String) (tr : Trace)
    (h : process_query true llm host q = (.ok out, tr)) :
    tr.toolCalls = toolUsesOf
      (llm [{ role := Role.user, content := MsgContent.text q }]).content ∧
    tr.llmHistories.length = 1 + (toolUsesOf
      (llm [{ role := Role.user, content := MsgContent.text q }]).content).length := by
  obtain ⟨res, horch, -⟩ := process_query_ok llm host q out tr h
  obtain ⟨h1, h2, -⟩ := orchLoop_ok_calls llm host _ _ _ _ _ _ horch
  exact ⟨by simpa using h1, by simpa [Nat.add_comm] using h2⟩

/-- C2 witness: the dispatch theorem applied to a concrete turn with one
dispatched tool. -/
theorem C2_dispatch_limited_to_first_response_witness :
    Trace.toolCalls
      { llmHistories :=
          [[{ role := Role.user, content := MsgContent.text "hi" }],
           [{ role := Role.user, content := MsgContent.text "hi" },
            { role := Role.assistant,
              content := MsgContent.blocks [.toolUse "id1" "tool_one" (.obj [])] },
            { role := Role.user, content := MsgContent.toolResult "id1" (.str "res") }]],
        toolCalls := [("tool_one", Json.obj [])], transportCalls := 2,
        connectedAfter := true } =
      toolUsesOf (llmFollowUpTool
        [{ role := Role.user, content := MsgContent.text "hi" }]).content ∧
    (Trace.llmHistories
      { llmHistories :=
          [[{ role := Role.user, content := MsgContent.text "hi" }],
           [{ role := Role.user, content := MsgContent.text "hi" },
            { role := Role.assistant,
              content := MsgContent.blocks [.toolUse "id1" "tool_one" (.obj [])] },
            { role := Role.user, content := MsgContent.toolResult "id1" (.str "res") }]],
        toolCalls := [("tool_one", Json.obj [])], transportCalls := 2,
        connectedAfter := true }).length =
      1 + (toolUsesOf (llmFollowUpTool
        [{ role := Role.user, content := MsgContent.text "hi" }]).content).length :=
  C2_dispatch_limited_to_first_response llmFollowUpTool hostOk "hi"
    "[Calling tool tool_one with args \x7b\x7d]\nsecond"
    { llmHistories :=
        [[{ role := Role.user, content := MsgContent.text "hi" }],
         [{ role := Role.user, content := MsgContent.text "hi" },
          { role := Role.assistant,
            content := MsgContent.blocks [.toolUse "id1" "tool_one" (.obj [])] },
          { role := Role.user, content := MsgContent.toolResult "id1" (.str "res") }]],
      toolCalls := [("tool_one", Json.obj [])], transportCalls := 2,
      connectedAfter := true } rfl

/-- C2 counterexample: a turn whose follow-up LLM response still contains
a tool-use block nevertheless completes normally, and that block is never
dispatched: the response to the second recorded LLM call requests `tool_two`,
yet the dispatched calls are exactly `[tool_one]`. -/
theorem C2_follow_up_tool_use_not_dispatched :
    process_query true llmFollowUpTool hostOk "hi" =
      (.ok "[Calling tool tool_one with args \x7b\x7d]\nsecond",
       { llmHistories :=
           [[{ role := Role.user, content := MsgContent.text "hi" }],
            [{ role := Role.user, content := MsgContent.text "hi" },
             { role := Role.assistant,
               content := MsgContent.blocks [.toolUse "id1" "tool_one" (.obj [])] },
             { role := Role.user, content := MsgContent.toolResult "id1" (.str "res") }]],
         toolCalls := [("tool_one", Json.obj [])], transportCalls := 2,
         connectedAfter := true }) ∧
    llmFollowUpTool
      [{ role := Role.user, content := MsgContent.text "hi" },
       { role := Role.assistant,
         content := MsgContent.blocks [.toolUse "id1" "tool_one" (.obj [])] },
       { role := Role.user, content := MsgContent.toolResult "id1" (.str "res") }] =
      { content := [.text "second", .toolUse "id2" "tool_two" (.obj [])] } ∧
    ("tool_two", Json.obj []) ∉
      [(("tool_one" : String), Json.obj [])] :=
  ⟨rfl, rfl, by simp⟩

/-- C1 (amended): for every successful orchestration turn, the returned
string equals the newline-join of the lines `emittedLines` predicts from
the first LLM response — each plain-text block contributes its text and
each dispatched tool-use block contributes the `[Calling tool ...]`
marker line followed by the text blocks of its follow-up LLM response —
and in particular a Scenario E turn (first response one text block and one
tool-use block, follow-up response only a text block) yields
`first_text + "\n" + marker + "\n" + second_text` with exactly one tool
invocation executed in between. -/
theorem C1_turn_output_lines :
    (∀ (llm : List Message → LLMResponse)
       (host : String → Json → Except PyErr Json) (q out : String)
       (tr : Trace),
      process_query true llm host q = (.ok out, tr) →
      ∃ es, emittedLines llm host
          (llm [{ role := Role.user, content := MsgContent.text q }]).content
          [{ role := Role.user, content := MsgContent.text q }] = some es ∧
        out = String.intercalate "\n" es) ∧
    (∀ (llm : List Message → LLMResponse)
       (host : String → Json → Except PyErr Json)
       (q t1 t2 id name : String) (args result : Json),
      llm [{ role := Role.user, content := MsgContent.text q }] =
        { content := [.text t1, .toolUse id name args] } →
      llm (toolStepMessages
          [{ role := Role.user, content := MsgContent.text q }]
          id name args result) = { content := [.text t2] } →
      host name args = .ok result →
      process_query true llm host q =
        (.ok (t1 ++ "\n" ++ callingMarker name args ++ "\n" ++ t2),
         { llmHistories :=
             [[{ role := Role.user, content := MsgContent.text q }],
              toolStepMessages
                [{ role := Role.user, content := MsgContent.text q }]
                id name args result],
           toolCalls := [(name, args)], transportCalls := 2,
           connectedAfter := true })) := by
  constructor
  · intro llm host q out tr h
    obtain ⟨res, horch, hout⟩ := process_query_ok llm host q out tr h
    obtain ⟨es, he, hr⟩ := orchLoop_ok_emitted llm host _ _ _ _ _ _ horch
    exact ⟨es, he, by simpa [hr] using hout⟩
  · intro llm host q t1 t2 id name args result h1 h2 h3
    unfold process_query
    simp only [reduceIte]
    rw [h1]
    simp only [orchLoop, h3, h2, textsOf]
    simp [intercalate_triple]

/-- C1 witness: both halves of the output theorem at the concrete
Scenario E oracle `llmScenarioE` and host `hostOk`. -/
theorem C1_turn_output_lines_witness :
    (∃ es, emittedLines llmScenarioE hostOk
        (llmScenarioE
          [{ role := Role.user, content := MsgContent.text "hi" }]).content
        [{ role := Role.user, content := MsgContent.text "hi" }] = some es ∧
      ("first\n[Calling tool get_info with args \x7b\x27k\x27: \x27v\x27\x7d]\nsecond" : String) =
        String.intercalate "\n" es) ∧
    process_query true llmScenarioE hostOk "hi" =
      (.ok ("first" ++ "\n" ++
        callingMarker "get_info" (.obj [("k", .str "v")]) ++ "\n" ++ "second"),
       { llmHistories :=
           [[{ role := Role.user, content := MsgContent.text "hi" }],
            toolStepMessages [{ role := Role.user, content := MsgContent.text "hi" }]
              "idA" "get_info" (.obj [("k", .str "v")]) (.str "res")],
         toolCalls := [("get_info", .obj [("k", .str "v")])],
         transportCalls := 2, connectedAfter := true }) :=
  ⟨C1_turn_output_lines.1 llmScenarioE hostOk "hi"
     "first\n[Calling tool get_info with args \x7b\x27k\x27: \x27v\x27\x7d]\nsecond"
     { llmHistories :=
         [[{ role := Role.user, content := MsgContent.text "hi" }],
          toolStepMessages [{ role := Role.user, content := MsgContent.text "hi" }]
            "idA" "get_info" (.obj [("k", .str "v")]) (.str "res")],
       toolCalls := [("get_info", .obj [("k", .str "v")])],
       transportCalls := 2, connectedAfter := true } rfl,
   C1_turn_output_lines.2 llmScenarioE hostOk "hi" "first" "second" "idA"
     "get_info" (.obj [("k", .str "v")]) (.str "res") rfl rfl rfl⟩

/-- C1 counterexample: in the concrete Scenario E turn the tool-use block
does contribute to the output — the `[Calling tool ...]` marker line sits
between the two texts — so the output differs from
`first_text + "\n" + second_text`. -/
theorem C1_marker_contributes_to_output :
    (process_query true llmScenarioE hostOk "hi").1 =
      .ok "first\n[Calling tool get_info with args \x7b\x27k\x27: \x27v\x27\x7d]\nsecond" ∧
    (process_query true llmScenarioE hostOk "hi").2.toolCalls =
      [("get_info", Json.obj [("k", Json.str "v")])] ∧
    ("first\n[Calling tool get_info with args \x7b\x27k\x27: \x27v\x27\x7d]\nsecond" : String) ≠
      "first\nsecond" :=
  ⟨rfl, rfl, by decide⟩
